import Mathlib

/-!
Verification of the IT-assets front end: a shallow embedding of the asset
service layer (assetService / authService), the ResetPassword form handler,
and the Dashboard view-state logic (scope computation, fetch handlers,
mutation handlers, search debouncing, and the local mine counter), with
theorems settling the specified properties.
-/

namespace ITAssets

/-- A single query-string parameter, as appended to a URLSearchParams object. -/
structure Param where
  key : String
  value : String
deriving DecidableEq, Repr

/-- Append a parameter only under a guard, mirroring the JS pattern
    `if (x) params.append(k, v)`. -/
def condParam (cond : Bool) (k v : String) : List Param :=
  if cond then [⟨k, v⟩] else []

/-- Look up the first value bound to a key in a parameter list. -/
def getParam (ps : List Param) (k : String) : Option String :=
  (ps.find? (fun p => p.key == k)).map (fun p => p.value)

/-- Options object accepted by getAllAssets, with the destructuring defaults
    of the source. -/
structure AssetQueryOptions where
  page : Nat := 1
  limit : Nat := 20
  sortBy : String := "createdAt"
  order : String := "desc"
  search : String := ""
  companyName : String := ""
  device : String := ""
  branch : String := ""
  department : String := ""
  status : String := ""
  createdBy : String := ""
deriving DecidableEq, Repr

/-- Query parameters built by getAllAssets: base parameters (page, limit,
    sortBy, order, cache-busting timestamp), then each optional filter appended
    only when truthy; search is appended trimmed, and only when both the raw
    and the trimmed values are nonempty. -/
def getAllAssetsParams (now : Nat) (o : AssetQueryOptions) : List Param :=
  [⟨"page", toString o.page⟩, ⟨"limit", toString o.limit⟩,
   ⟨"sortBy", o.sortBy⟩, ⟨"order", o.order⟩, ⟨"_t", toString now⟩]
  ++ condParam (o.search != "" && o.search.trim != "") "search" o.search.trim
  ++ condParam (o.companyName != "") "companyName" o.companyName
  ++ condParam (o.device != "") "device" o.device
  ++ condParam (o.branch != "") "branch" o.branch
  ++ condParam (o.department != "") "department" o.department
  ++ condParam (o.status != "") "status" o.status
  ++ condParam (o.createdBy != "") "createdBy" o.createdBy

/-- Query parameters built per count request by buildParams inside
    getAssetCounts: page 1, limit 1, fixed sort, timestamp, then companyName and
    device when truthy. getAssetCounts declares a single companyName parameter
    and has no createdBy parameter at all. -/
def getAssetCountsParams (companyName : String) (now : Nat) (device : String) :
    List Param :=
  [⟨"page", "1"⟩, ⟨"limit", "1"⟩, ⟨"sortBy", "createdAt"⟩, ⟨"order", "desc"⟩,
   ⟨"_t", toString now⟩]
  ++ condParam (companyName != "") "companyName" companyName
  ++ condParam (device != "") "device" device

/-- The four parallel count requests issued by getAssetCounts: overall total,
    Laptop, Desktop, Printer. -/
def getAssetCountsRequests (companyName : String) (now : Nat) : List (List Param) :=
  [getAssetCountsParams companyName now "",
   getAssetCountsParams companyName now "Laptop",
   getAssetCountsParams companyName now "Desktop",
   getAssetCountsParams companyName now "Printer"]

/-- Outcome of one count-request fetch: the fetch may reject at the network
    level, or yield a response carrying an ok flag, whether its json body
    parses, and the optional data.pagination.totalItems field. -/
inductive FetchOutcome where
  | netFail
  | resp (ok : Bool) (jsonOk : Bool) (totalItems : Option Nat)
deriving DecidableEq, Repr

/-- Device-type counts returned by getAssetCounts. -/
structure Counts where
  total : Nat
  laptops : Nat
  desktops : Nat
  printers : Nat
deriving DecidableEq, Repr

/-- extractCount: a non-ok response contributes 0 without reading its body; an
    ok response reads data.pagination.totalItems with 0 as fallback. A network
    failure, or an ok response whose json fails to parse, rejects (none), which
    sends the whole getAssetCounts call into its catch branch. -/
def extractCount : FetchOutcome → Option Nat
  | .netFail => none
  | .resp ok jsonOk totalItems =>
      if !ok then some 0
      else if !jsonOk then none
      else some (totalItems.getD 0)

/-- getAssetCounts result: the four extracted counts when every extraction
    succeeds; any rejection reaches the catch branch, which returns all zeros. -/
def getAssetCountsResult (o1 o2 o3 o4 : FetchOutcome) : Counts :=
  match extractCount o1, extractCount o2, extractCount o3, extractCount o4 with
  | some t, some l, some d, some p => ⟨t, l, d, p⟩
  | _, _, _, _ => ⟨0, 0, 0, 0⟩

/-- A creation payload: serialNumber and createdBy are JS object keys that may
    be absent; the remaining form fields are kept abstract as key/value pairs. -/
structure AssetPayload where
  serialNumber : Option String := none
  createdBy : Option String := none
  fields : List (String × String) := []
deriving DecidableEq, Repr

/-- JS truthiness of the serialNumber field: an absent key or an empty string
    is falsy. -/
def serialTruthy : Option String → Bool
  | none => false
  | some s => s != ""

/-- createAsset (service layer): when serialNumber is falsy the key is dropped
    from the posted body so the backend generates one; otherwise the body is
    posted as given. -/
def createAssetBody (assetData : AssetPayload) : AssetPayload :=
  if serialTruthy assetData.serialNumber then assetData
  else { assetData with serialNumber := none }

/-- Outcome of a mutation HTTP call: success, a non-2xx response whose parsed
    body may contain a message field, or a network-level failure. -/
inductive MutationOutcome where
  | success
  | httpError (status : Nat) (message : Option String)
  | netError (msg : String)
deriving DecidableEq, Repr

/-- Message of the error thrown by createAsset: the body message when present,
    else the generic HTTP status text; none on success. -/
def createAssetThrownMessage : MutationOutcome → Option String
  | .success => none
  | .httpError status message =>
      some (message.getD ("HTTP error! status: " ++ toString status))
  | .netError msg => some msg

/-- Message of the error thrown by updateAsset and by deleteAsset: always the
    generic HTTP status text on a non-ok response (their bodies are never read
    for a message field). -/
def updateDeleteThrownMessage : MutationOutcome → Option String
  | .success => none
  | .httpError status _ => some ("HTTP error! status: " ++ toString status)
  | .netError msg => some msg

/-- The ResetPassword form fields. -/
structure ResetForm where
  username : String := ""
  oldPassword : String := ""
  newPassword : String := ""
  confirmPassword : String := ""
deriving DecidableEq, Repr

/-- What a ResetPassword submission does: reject client-side with an error
    message and no network call, or invoke the resetPassword endpoint. -/
inductive ResetAction where
  | clientReject (errorMsg : String)
  | callResetPassword (username oldPassword newPassword : String)
deriving DecidableEq, Repr

/-- handleSubmit of the ResetPassword form: the mismatch check and then the
    minimum-length check each reject client-side before any network call;
    only when both pass is resetPassword called. -/
def resetHandleSubmit (f : ResetForm) : ResetAction :=
  if f.newPassword != f.confirmPassword then
    .clientReject "Passwords do not match"
  else if f.newPassword.length < 3 then
    .clientReject "Password must be at least 3 characters long"
  else
    .callResetPassword f.username f.oldPassword f.newPassword

/-- The authenticated user as seen by the Dashboard. -/
structure User where
  id : String := ""
  role : String := "user"
deriving DecidableEq, Repr

/-- The Dashboard admin check: user role equals admin. -/
def isAdmin (u : User) : Bool := u.role == "admin"

/-- The effective createdBy scope computed by the Dashboard handlers:
    the user id when the user is non-admin or the view mode is my, else the
    empty string. -/
def createdByFilter (u : User) (viewMode : String) : String :=
  if !isAdmin u || viewMode == "my" then u.id else ""

/-- Server pagination metadata held in dashboard state. -/
structure Pagination where
  currentPage : Nat := 1
  totalPages : Nat := 1
  totalItems : Nat := 0
  itemsPerPage : Nat := 20
  hasNextPage : Bool := false
  hasPrevPage : Bool := false
deriving DecidableEq, Repr

/-- The Dashboard view state relevant to scoping, paging and the mine counter. -/
structure DashState where
  viewMode : String := "all"
  selectedCompany : String := ""
  selectedDeviceType : String := ""
  searchTerm : String := ""
  pagination : Pagination := {}
  myAssetCount : Int := 0
  error : Option String := none
deriving DecidableEq, Repr

/-- The options object handed to fetchAssets; an absent field falls back to
    the current state (searchTerm, selectedCompany, selectedDeviceType), and
    createdBy defaults to the empty string. -/
structure FetchOptions where
  page : Nat := 1
  search : Option String := none
  companyName : Option String := none
  device : Option String := none
  createdBy : String := ""
deriving DecidableEq, Repr

/-- fetchAssets: the getAllAssets options assembled from the fetch options and
    the current dashboard state (limit 20, sorted by createdAt descending). -/
def fetchAssetsCall (s : DashState) (o : FetchOptions) : AssetQueryOptions :=
  { page := o.page, limit := 20, sortBy := "createdAt", order := "desc",
    search := o.search.getD s.searchTerm,
    companyName := o.companyName.getD s.selectedCompany,
    device := o.device.getD s.selectedDeviceType,
    createdBy := o.createdBy }

/-- handlePageChange: refetch the requested page keeping current filters and
    the effective createdBy scope. -/
def handlePageChange (u : User) (s : DashState) (newPage : Nat) :
    List AssetQueryOptions :=
  [fetchAssetsCall s { page := newPage, createdBy := createdByFilter u s.viewMode }]

/-- handleCompanyFilter: the declared company-filter handler; sets the filter
    and refetches page 1 with the new company under the effective scope. -/
def handleCompanyFilter (u : User) (s : DashState) (company : String) :
    DashState × List AssetQueryOptions :=
  ({ s with selectedCompany := company },
   [fetchAssetsCall s { page := 1, companyName := some company,
                        createdBy := createdByFilter u s.viewMode }])

/-- handleDeviceTypeFilter: the declared device-filter handler; sets the filter
    and refetches page 1 with the new device under the effective scope. -/
def handleDeviceTypeFilter (u : User) (s : DashState) (device : String) :
    DashState × List AssetQueryOptions :=
  ({ s with selectedDeviceType := device },
   [fetchAssetsCall s { page := 1, device := some device,
                        createdBy := createdByFilter u s.viewMode }])

/-- User interactions on the rendered dashboard that touch the asset list. -/
inductive UIEvent where
  | deviceCardClick (d : String)
  | companySelectChange (c : String)
  | viewModeSet (m : String)
  | searchDebounceFire (term : String)
  | pageClick (n : Nat)
deriving DecidableEq, Repr

/-- One dashboard transition: the state update and the getAllAssets requests
    issued. The device summary cards and the company select call the bare state
    setters (setSelectedDeviceType / setSelectedCompany) in their JSX handlers
    and no effect refetches the asset list when those pieces of state change,
    so they issue no asset-list request. Setting the view mode runs the
    role-scoped effect; a debounced search firing and a pagination click call
    fetchAssets directly. -/
def step (u : User) (s : DashState) : UIEvent → DashState × List AssetQueryOptions
  | .deviceCardClick d => ({ s with selectedDeviceType := d }, [])
  | .companySelectChange c => ({ s with selectedCompany := c }, [])
  | .viewModeSet m =>
      let s2 := { s with viewMode := m }
      let reqs :=
        if !isAdmin u then
          if u.id != "" then
            [fetchAssetsCall s2 { page := 1, createdBy := u.id }]
          else []
        else if m == "my" && u.id != "" then
          [fetchAssetsCall s2 { page := 1, createdBy := u.id }]
        else if m == "all" then
          [fetchAssetsCall s2 { page := 1, createdBy := "" }]
        else []
      (s2, reqs)
  | .searchDebounceFire term =>
      ({ s with searchTerm := term },
       [fetchAssetsCall s { page := 1, search := some term,
                            createdBy := createdByFilter u s.viewMode }])
  | .pageClick n => (s, handlePageChange u s n)

/-- fetchDeviceCounts / refreshCounts: the Dashboard computes a createdBy
    filter for non-admin users and passes it as a second argument, but
    getAssetCounts declares only a companyName parameter, so in JS the extra
    argument is dropped and the count requests are built from the company
    filter alone. -/
def fetchDeviceCountsRequests (u : User) (s : DashState) (now : Nat) :
    List (List Param) :=
  let _createdByFilter := if !isAdmin u then u.id else ""
  getAssetCountsRequests s.selectedCompany now

/-- Form data submitted from the asset modal; serialNumber may be an absent
    key, the other fields are kept abstract. -/
structure AssetFormData where
  serialNumber : Option String := none
  fields : List (String × String) := []
deriving DecidableEq, Repr

/-- The blank-serial test of handleAddAsset: the field is falsy, or trims to
    the empty string, or equals the placeholder text. -/
def serialIsBlank : Option String → Bool
  | none => true
  | some s => s == "" || s.trim == "" || s == "Will be generated on save"

/-- handleAddAsset payload assembly: spread the form data, attach createdBy,
    then delete a blank or placeholder serialNumber so the backend generates
    one. -/
def buildCreatePayload (uid : String) (f : AssetFormData) : AssetPayload :=
  let assetData : AssetPayload :=
    { serialNumber := f.serialNumber, createdBy := some uid, fields := f.fields }
  if serialIsBlank assetData.serialNumber then { assetData with serialNumber := none }
  else assetData

/-- Remote calls issued by the mutation handlers, in order. -/
inductive RemoteCall where
  | createCall (body : AssetPayload)
  | updateCall (id : String)
  | deleteCall (id : String)
  | listCall (q : AssetQueryOptions)
  | countsCall (companyName : String)
deriving DecidableEq, Repr

/-- The asset-list refetches among a sequence of remote calls. -/
def listCalls (cs : List RemoteCall) : List AssetQueryOptions :=
  cs.filterMap (fun c => match c with | .listCall q => some q | _ => none)

/-- How many mutation (create, update or delete) calls a sequence contains. -/
def mutationCallCount (cs : List RemoteCall) : Nat :=
  (cs.filter (fun c =>
    match c with
    | .createCall _ => true
    | .updateCall _ => true
    | .deleteCall _ => true
    | _ => false)).length

/-- handleAddAsset: build the payload and call createAsset; on success refetch
    page 1 under the effective scope, bump the mine counter and refresh counts;
    on failure set the generic creation error message. -/
def handleAddAsset (u : User) (s : DashState) (f : AssetFormData)
    (outcome : MutationOutcome) : DashState × List RemoteCall :=
  let body := createAssetBody (buildCreatePayload u.id f)
  match outcome with
  | .success =>
      ({ s with error := none, myAssetCount := s.myAssetCount + 1 },
       [.createCall body,
        .listCall (fetchAssetsCall s
          { page := 1, createdBy := createdByFilter u s.viewMode }),
        .countsCall s.selectedCompany])
  | _ =>
      ({ s with error := some "Failed to create asset. Please try again." },
       [.createCall body])

/-- handleEditAsset: call updateAsset; on success refetch the page that is
    currently active under the effective scope and refresh counts; on failure
    set the generic update error message. -/
def handleEditAsset (u : User) (s : DashState) (assetId : String)
    (outcome : MutationOutcome) : DashState × List RemoteCall :=
  match outcome with
  | .success =>
      ({ s with error := none },
       [.updateCall assetId,
        .listCall (fetchAssetsCall s
          { page := s.pagination.currentPage,
            createdBy := createdByFilter u s.viewMode }),
        .countsCall s.selectedCompany])
  | _ =>
      ({ s with error := some "Failed to update asset. Please try again." },
       [.updateCall assetId])

/-- handleDeleteAsset: call deleteAsset; on success refetch the currently
    active page under the effective scope, decrement the mine counter with a
    floor of zero and refresh counts; on failure set the generic delete error
    message. -/
def handleDeleteAsset (u : User) (s : DashState) (assetId : String)
    (outcome : MutationOutcome) : DashState × List RemoteCall :=
  match outcome with
  | .success =>
      ({ s with error := none, myAssetCount := max 0 (s.myAssetCount - 1) },
       [.deleteCall assetId,
        .listCall (fetchAssetsCall s
          { page := s.pagination.currentPage,
            createdBy := createdByFilter u s.viewMode }),
        .countsCall s.selectedCompany])
  | _ =>
      ({ s with error := some "Failed to delete asset. Please try again." },
       [.deleteCall assetId])

/-- Debounce state: the controlled search term and the pending 400ms timer,
    recorded as its fire time and the term it will fetch. -/
structure DebounceState where
  searchTerm : String := ""
  pending : Option (Nat × String) := none
deriving DecidableEq, Repr

/-- One keystroke at time t (handleSearch): a previously scheduled timer whose
    deadline already passed has fired its fetch; an unexpired one is cleared by
    clearTimeout; a fresh 400ms timer is then scheduled for the new value.
    Returns the new state and the fetches that fired before this keystroke. -/
def stepKeystroke (s : DebounceState) (t : Nat) (term : String) :
    DebounceState × List (Nat × String) :=
  let fired :=
    match s.pending with
    | some (d, v) => if d ≤ t then [(d, v)] else []
    | none => []
  ({ searchTerm := term, pending := some (t + 400, term) }, fired)

/-- Run a timestamped keystroke sequence, collecting the fetches fired along
    the way. -/
def runKeystrokes (s : DebounceState) :
    List (Nat × String) → DebounceState × List (Nat × String)
  | [] => (s, [])
  | (t, term) :: rest =>
      let r1 := stepKeystroke s t term
      let r2 := runKeystrokes r1.1 rest
      (r2.1, r1.2 ++ r2.2)

/-- Fetches fired once typing stops and the component stays mounted: the
    pending timer, if any, eventually fires. -/
def settle (s : DebounceState) : List (Nat × String) :=
  match s.pending with
  | some (d, v) => [(d, v)]
  | none => []

/-- Teardown at time t: the cleanup effect clears the pending timer, so a timer
    whose deadline has not yet passed never fires. -/
def unmountAt (s : DebounceState) (t : Nat) : List (Nat × String) :=
  match s.pending with
  | some (d, v) => if d ≤ t then [(d, v)] else []
  | none => []

/-- Consecutive keystrokes of the trace are less than 400ms apart. -/
def rapid : List (Nat × String) → Bool
  | (t1, _) :: (t2, v2) :: rest => decide (t2 < t1 + 400) && rapid ((t2, v2) :: rest)
  | _ => true

/-- The last keystroke of a trace (the empty trace gives a dummy). -/
def lastStroke : List (Nat × String) → Nat × String
  | [] => (0, "")
  | [k] => k
  | _ :: k :: rest => lastStroke (k :: rest)

/-- The operations the Dashboard performs on the local myAssetCount counter. -/
inductive CounterOp where
  | setFromServer (totalItems : Nat)
  | addCreated
  | addImported (imported : Nat)
  | decOnDelete
deriving DecidableEq, Repr

/-- The corresponding counter updates: set to the server total, previous plus
    one, previous plus the imported count, and the floored decrement
    max(0, previous minus 1) performed on delete. -/
def applyCounterOp : Int → CounterOp → Int
  | _, .setFromServer n => (n : Int)
  | x, .addCreated => x + 1
  | x, .addImported n => x + (n : Int)
  | x, .decOnDelete => max 0 (x - 1)

/-- Looking a key up past a parameter whose key differs. -/
theorem getParam_cons_ne (p : Param) (l : List Param) (k : String)
    (h : (p.key == k) = false) : getParam (p :: l) k = getParam l k := by
  unfold getParam
  rw [List.find?_cons_of_neg _ (by simp [h])]

/-- Looking a key up past a conditional parameter whose key differs. -/
theorem getParam_condParam_ne (c : Bool) (k v k2 : String) (l : List Param)
    (h : (k == k2) = false) : getParam (condParam c k v ++ l) k2 = getParam l k2 := by
  cases c
  · simp [condParam]
  · exact getParam_cons_ne ⟨k, v⟩ l k2 h

/-- The value a conditional parameter binds to its own key. -/
theorem getParam_condParam_self (c : Bool) (k v : String) :
    getParam (condParam c k v) k = if c then some v else none := by
  cases c <;> simp [condParam, getParam, List.find?]

/-- getAllAssets appends the createdBy parameter exactly when the given
    createdBy option is nonempty, binding it to that value. -/
theorem getAllAssetsParams_createdBy (now : Nat) (o : AssetQueryOptions) :
    getParam (getAllAssetsParams now o) "createdBy" =
      if o.createdBy = "" then none else some o.createdBy := by
  unfold getAllAssetsParams
  simp only [List.append_assoc, List.cons_append, List.nil_append]
  simp [getParam_cons_ne, getParam_condParam_ne, getParam_condParam_self]

/-- A fetchAssets request carries the createdBy parameter exactly when the
    handler passed a nonempty createdBy value. -/
theorem getParam_scoped (now : Nat) (s : DashState) (o : FetchOptions) :
    getParam (getAllAssetsParams now (fetchAssetsCall s o)) "createdBy" =
      if o.createdBy = "" then none else some o.createdBy := by
  rw [getAllAssetsParams_createdBy]
  rfl

/-- The effective scope value, read back as a query parameter: the user id
    exactly when the user is non-admin or the view mode is my. -/
theorem createdByFilter_spec (u : User) (vm : String) (hid : u.id ≠ "") :
    (if createdByFilter u vm = "" then none else some (createdByFilter u vm)) =
      if isAdmin u = false ∨ vm = "my" then some u.id else none := by
  unfold createdByFilter
  cases hA : isAdmin u <;> by_cases hm : vm = "my" <;> simp [hA, hm, hid]

/-- C1: for every role and view mode, an asset-list request issued by a
    dashboard interaction carries the createdBy parameter set to the current
    user id exactly when the effective scope is mine, that is when the user is
    non-admin or the (admin) view mode is my, and carries no createdBy
    parameter otherwise. -/
theorem C1_createdBy_scope (u : User) (s : DashState) (e : UIEvent) (now : Nat)
    (hid : u.id ≠ "") :
    ∀ q ∈ (step u s e).2,
      getParam (getAllAssetsParams now q) "createdBy" =
        if isAdmin u = false ∨ (step u s e).1.viewMode = "my" then some u.id
        else none := by
  cases e with
  | deviceCardClick d => intro q hq; simp [step] at hq
  | companySelectChange c => intro q hq; simp [step] at hq
  | searchDebounceFire term =>
      intro q hq
      simp only [step, List.mem_singleton] at hq
      subst hq
      rw [getParam_scoped]
      exact createdByFilter_spec u s.viewMode hid
  | pageClick n =>
      intro q hq
      simp only [step, handlePageChange, List.mem_singleton] at hq
      subst hq
      rw [getParam_scoped]
      exact createdByFilter_spec u s.viewMode hid
  | viewModeSet m =>
      intro q hq
      show getParam (getAllAssetsParams now q) "createdBy" =
        if isAdmin u = false ∨ m = "my" then some u.id else none
      simp only [step] at hq
      split at hq
      case isTrue hna =>
        have hAf : isAdmin u = false := by
          cases h2 : isAdmin u <;> simp [h2] at hna ⊢
        split at hq
        case isTrue hidb =>
          rw [List.mem_singleton] at hq
          subst hq
          rw [getParam_scoped]
          simp [hAf, hid]
        case isFalse hidb => simp at hq
      case isFalse hna =>
        have hAt : isAdmin u = true := by
          cases h2 : isAdmin u <;> simp [h2] at hna ⊢
        split at hq
        case isTrue hb =>
          have hm : m = "my" := by
            rcases Bool.and_eq_true .. |>.mp hb with ⟨h1, _⟩
            exact (beq_iff_eq ..).mp h1
          rw [List.mem_singleton] at hq
          subst hq
          rw [getParam_scoped]
          simp [hAt, hm, hid]
        case isFalse hb =>
          split at hq
          case isTrue hall =>
            have hm : m ≠ "my" := by
              intro hmy
              apply hb
              simp [hmy, hid]
            rw [List.mem_singleton] at hq
            subst hq
            rw [getParam_scoped]
            simp [hAt, hm]
          case isFalse hall => simp at hq

/-- C1 witness: the scope theorem applied to an admin paging through the
    mine view. -/
theorem C1_createdBy_scope_witness :
    ("u1" : String) ≠ "" ∧
    ∀ q ∈ (step ⟨"u1", "admin"⟩ { viewMode := "my" } (.pageClick 2)).2,
      getParam (getAllAssetsParams 7 q) "createdBy" =
        if isAdmin ⟨"u1", "admin"⟩ = false ∨
            (step ⟨"u1", "admin"⟩ { viewMode := "my" } (.pageClick 2)).1.viewMode = "my"
        then some "u1" else none :=
  ⟨by decide,
   C1_createdBy_scope ⟨"u1", "admin"⟩ { viewMode := "my" } (.pageClick 2) 7 (by decide)⟩

/-- C2: the Dashboard computes a user scope for non-admin users and passes it
    to getAssetCounts, but getAssetCounts accepts only a company name, so none
    of the four device-count requests carries a createdBy parameter even for a
    non-admin user; the counts are scoped to the company filter alone. -/
theorem C2_counts_not_user_scoped :
    ((if !isAdmin ⟨"u1", "user"⟩ then "u1" else "") = "u1") ∧
    (∀ ps ∈ fetchDeviceCountsRequests ⟨"u1", "user"⟩ { selectedCompany := "TGL" } 0,
        getParam ps "createdBy" = none) ∧
    (∀ ps ∈ fetchDeviceCountsRequests ⟨"u1", "user"⟩ { selectedCompany := "TGL" } 0,
        getParam ps "companyName" = some "TGL") := by
  refine ⟨rfl, by decide, by decide⟩

/-- C3: search and view-mode changes request page 1, and the declared filter
    handlers would too, but the rendered device cards and company select call
    the bare state setters, bypassing those handlers, so a filter change made
    through the dashboard controls issues no asset-list request at all; after
    a device-card click on a page-2 dashboard the next request is whatever the
    user asks next, for instance a pagination click that is not page 1. -/
theorem C3_filter_change_requests :
    (∀ u s d, (step u s (.deviceCardClick d)).2 = []) ∧
    (∀ u s c, (step u s (.companySelectChange c)).2 = []) ∧
    (∀ u s term,
      ((step u s (.searchDebounceFire term)).2.map AssetQueryOptions.page) = [1]) ∧
    (∀ u s m,
      ((step u s (.viewModeSet m)).2.map AssetQueryOptions.page).all
        (fun p => p == 1) = true) ∧
    (∀ u s d, ((handleDeviceTypeFilter u s d).2.map AssetQueryOptions.page) = [1]) ∧
    (∀ u s c, ((handleCompanyFilter u s c).2.map AssetQueryOptions.page) = [1]) ∧
    (step ⟨"u1", "admin"⟩ { pagination := { currentPage := 2 } }
      (.deviceCardClick "Laptop")).2 = [] ∧
    ((step ⟨"u1", "admin"⟩ { pagination := { currentPage := 2 } }
      (.pageClick 2)).2.map AssetQueryOptions.page) = [2] := by
  refine ⟨fun u s d => rfl, fun u s c => rfl, fun u s term => rfl, ?_,
    fun u s d => rfl, fun u s c => rfl, rfl, rfl⟩
  intro u s m
  simp only [step]
  by_cases hA : isAdmin u <;> by_cases hidm : u.id = "" <;> by_cases hm : m = "my" <;>
    by_cases ha : m = "all" <;> simp [hA, hidm, hm, ha, fetchAssetsCall]

/-- C4: a successful create refetches page 1, a successful update and a
    successful delete refetch the page that was current before the call, and
    each of the three refetch requests carries the current effective createdBy
    scope. -/
theorem C4_mutation_refetch_pages (u : User) (s : DashState) (f : AssetFormData)
    (assetId : String) :
    (listCalls (handleAddAsset u s f .success).2).map AssetQueryOptions.page
      = [1] ∧
    (listCalls (handleEditAsset u s assetId .success).2).map AssetQueryOptions.page
      = [s.pagination.currentPage] ∧
    (listCalls (handleDeleteAsset u s assetId .success).2).map AssetQueryOptions.page
      = [s.pagination.currentPage] ∧
    (listCalls (handleAddAsset u s f .success).2).map AssetQueryOptions.createdBy
      = [createdByFilter u s.viewMode] ∧
    (listCalls (handleEditAsset u s assetId .success).2).map AssetQueryOptions.createdBy
      = [createdByFilter u s.viewMode] ∧
    (listCalls (handleDeleteAsset u s assetId .success).2).map AssetQueryOptions.createdBy
      = [createdByFilter u s.viewMode] :=
  ⟨rfl, rfl, rfl, rfl, rfl, rfl⟩

/-- C5 counterexample: a failed create whose response body carries the message
    Duplicate serial number surfaces the generic creation message to the user,
    not the remote one; the remote message reaches only the service-level
    exception, which the Dashboard catch block discards. -/
theorem C5_counterexample_remote_message_dropped :
    createAssetThrownMessage (.httpError 400 (some "Duplicate serial number"))
      = some "Duplicate serial number" ∧
    (handleAddAsset ⟨"u1", "user"⟩ {} {}
        (.httpError 400 (some "Duplicate serial number"))).1.error
      = some "Failed to create asset. Please try again." ∧
    ("Failed to create asset. Please try again." : String)
      ≠ "Duplicate serial number" :=
  ⟨rfl, rfl, by decide⟩

/-- C5 amended: for every failed create, update or delete, the user-facing
    error is the fixed generic message of that operation regardless of any
    remote message; at the service level createAsset reports the remote body
    message when present while updateAsset and deleteAsset report only the
    HTTP status text; and no failed mutation issues a second mutation call. -/
theorem C5_generic_error_no_retry (u : User) (s : DashState) (f : AssetFormData)
    (assetId : String) (o : MutationOutcome) (h : o ≠ .success) :
    (handleAddAsset u s f o).1.error
      = some "Failed to create asset. Please try again." ∧
    (handleEditAsset u s assetId o).1.error
      = some "Failed to update asset. Please try again." ∧
    (handleDeleteAsset u s assetId o).1.error
      = some "Failed to delete asset. Please try again." ∧
    mutationCallCount (handleAddAsset u s f o).2 = 1 ∧
    mutationCallCount (handleEditAsset u s assetId o).2 = 1 ∧
    mutationCallCount (handleDeleteAsset u s assetId o).2 = 1 ∧
    (∀ st m, createAssetThrownMessage (.httpError st (some m)) = some m) ∧
    (∀ st m, updateDeleteThrownMessage (.httpError st m)
        = some ("HTTP error! status: " ++ toString st)) := by
  cases o with
  | success => exact absurd rfl h
  | httpError st m =>
      exact ⟨rfl, rfl, rfl, rfl, rfl, rfl, fun _ _ => rfl, fun _ _ => rfl⟩
  | netError m =>
      exact ⟨rfl, rfl, rfl, rfl, rfl, rfl, fun _ _ => rfl, fun _ _ => rfl⟩

/-- C5 witness: the generic-message theorem applied to a 500 response with no
    body message. -/
theorem C5_generic_error_no_retry_witness :
    (MutationOutcome.httpError 500 none ≠ MutationOutcome.success) ∧
    ((handleAddAsset ⟨"u1", "user"⟩ {} {} (.httpError 500 none)).1.error
        = some "Failed to create asset. Please try again." ∧
     (handleEditAsset ⟨"u1", "user"⟩ {} "a1" (.httpError 500 none)).1.error
        = some "Failed to update asset. Please try again." ∧
     (handleDeleteAsset ⟨"u1", "user"⟩ {} "a1" (.httpError 500 none)).1.error
        = some "Failed to delete asset. Please try again." ∧
     mutationCallCount (handleAddAsset ⟨"u1", "user"⟩ {} {} (.httpError 500 none)).2 = 1 ∧
     mutationCallCount (handleEditAsset ⟨"u1", "user"⟩ {} "a1" (.httpError 500 none)).2 = 1 ∧
     mutationCallCount (handleDeleteAsset ⟨"u1", "user"⟩ {} "a1" (.httpError 500 none)).2 = 1 ∧
     (∀ st m, createAssetThrownMessage (.httpError st (some m)) = some m) ∧
     (∀ st m, updateDeleteThrownMessage (.httpError st m)
        = some ("HTTP error! status: " ++ toString st))) :=
  ⟨by decide,
   C5_generic_error_no_retry ⟨"u1", "user"⟩ {} {} "a1" (.httpError 500 none) (by decide)⟩

/-- Every counter operation sends a nonnegative value to a nonnegative value. -/
theorem applyCounterOp_nonneg (x : Int) (op : CounterOp) (hx : 0 ≤ x) :
    0 ≤ applyCounterOp x op := by
  cases op with
  | setFromServer n => exact Int.natCast_nonneg n
  | addCreated => simp only [applyCounterOp]; omega
  | addImported n =>
      simp only [applyCounterOp]
      have := Int.natCast_nonneg n
      omega
  | decOnDelete => exact le_max_left 0 _

/-- Folding counter operations from a nonnegative start stays nonnegative. -/
theorem foldl_applyCounterOp_nonneg (ops : List CounterOp) (x : Int) (hx : 0 ≤ x) :
    0 ≤ ops.foldl applyCounterOp x := by
  induction ops generalizing x with
  | nil => simpa using hx
  | cons op rest ih => exact ih (applyCounterOp x op) (applyCounterOp_nonneg x op hx)

/-- C7: a successful delete sets the local mine counter to the maximum of zero
    and its previous value minus one, and any sequence of the counter
    operations the Dashboard performs, starting from the initial zero, keeps
    the counter nonnegative. -/
theorem C7_mine_counter_floor (u : User) (s : DashState) (assetId : String)
    (ops : List CounterOp) :
    (handleDeleteAsset u s assetId .success).1.myAssetCount
      = max 0 (s.myAssetCount - 1) ∧
    0 ≤ ops.foldl applyCounterOp 0 :=
  ⟨rfl, foldl_applyCounterOp_nonneg ops 0 le_rfl⟩

/-- C8: a create submission whose serial field is absent, empty, whitespace
    only, or the placeholder text produces an outgoing creation body with no
    serialNumber key, while createdBy is still attached as the current user
    id. -/
theorem C8_blank_serial_omitted (uid : String) (f : AssetFormData)
    (h : f.serialNumber = none ∨
         f.serialNumber = some "" ∨
         (∃ s, f.serialNumber = some s ∧ s.trim = "") ∨
         f.serialNumber = some "Will be generated on save") :
    (createAssetBody (buildCreatePayload uid f)).serialNumber = none ∧
    (createAssetBody (buildCreatePayload uid f)).createdBy = some uid := by
  have hblank : serialIsBlank f.serialNumber = true := by
    rcases h with h | h | ⟨s, hs, ht⟩ | h
    · simp [h, serialIsBlank]
    · simp [h, serialIsBlank]
    · simp [hs, serialIsBlank, ht]
    · simp [h, serialIsBlank]
  constructor <;> simp [buildCreatePayload, createAssetBody, hblank, serialTruthy]

/-- C8 witness: the omission theorem applied to an empty serial field. -/
theorem C8_blank_serial_omitted_witness :
    (({ serialNumber := some "" } : AssetFormData).serialNumber = none ∨
     ({ serialNumber := some "" } : AssetFormData).serialNumber = some "" ∨
     (∃ s, ({ serialNumber := some "" } : AssetFormData).serialNumber = some s ∧
        s.trim = "") ∨
     ({ serialNumber := some "" } : AssetFormData).serialNumber
        = some "Will be generated on save") ∧
    ((createAssetBody (buildCreatePayload "u1"
        { serialNumber := some "" })).serialNumber = none ∧
     (createAssetBody (buildCreatePayload "u1"
        { serialNumber := some "" })).createdBy = some "u1") :=
  ⟨Or.inr (Or.inl rfl),
   C8_blank_serial_omitted "u1" { serialNumber := some "" }
     (Or.inr (Or.inl rfl))⟩

/-- C9: a reset-password submission whose new password matches its
    confirmation but has fewer than 3 characters is rejected client-side with
    the exact minimum-length message, and no network call is made. -/
theorem C9_reset_password_min_length (f : ResetForm)
    (hmatch : f.newPassword = f.confirmPassword)
    (hlen : f.newPassword.length < 3) :
    resetHandleSubmit f
      = .clientReject "Password must be at least 3 characters long" := by
  unfold resetHandleSubmit
  rw [if_neg (by simp [hmatch]), if_pos hlen]

/-- C9 witness: the rejection theorem applied to a two-character password. -/
theorem C9_reset_password_min_length_witness :
    (({ username := "u1", oldPassword := "old", newPassword := "ab",
        confirmPassword := "ab" } : ResetForm).newPassword
      = ({ username := "u1", oldPassword := "old", newPassword := "ab",
           confirmPassword := "ab" } : ResetForm).confirmPassword) ∧
    (({ username := "u1", oldPassword := "old", newPassword := "ab",
        confirmPassword := "ab" } : ResetForm).newPassword.length < 3) ∧
    resetHandleSubmit
        { username := "u1", oldPassword := "old", newPassword := "ab",
          confirmPassword := "ab" }
      = .clientReject "Password must be at least 3 characters long" :=
  ⟨rfl, by decide,
   C9_reset_password_min_length
     { username := "u1", oldPassword := "old", newPassword := "ab",
       confirmPassword := "ab" } rfl (by decide)⟩

/-- C10: getAssetCounts is total over remote outcomes: whenever any of the
    four extractions rejects (a network failure, or an ok response whose body
    fails to parse) the catch branch returns the all-zero counts, and a non-ok
    response always contributes zero to its own count. -/
theorem C10_counts_error_totality (o1 o2 o3 o4 : FetchOutcome) :
    ((extractCount o1 = none ∨ extractCount o2 = none ∨ extractCount o3 = none ∨
        extractCount o4 = none) →
      getAssetCountsResult o1 o2 o3 o4 = ⟨0, 0, 0, 0⟩) ∧
    (∀ j t, o1 = .resp false j t → (getAssetCountsResult o1 o2 o3 o4).total = 0) ∧
    (∀ j t, o2 = .resp false j t → (getAssetCountsResult o1 o2 o3 o4).laptops = 0) ∧
    (∀ j t, o3 = .resp false j t → (getAssetCountsResult o1 o2 o3 o4).desktops = 0) ∧
    (∀ j t, o4 = .resp false j t → (getAssetCountsResult o1 o2 o3 o4).printers = 0) := by
  refine ⟨?_, ?_, ?_, ?_, ?_⟩
  · intro h
    rcases h1 : extractCount o1 with _ | t1
    · simp [getAssetCountsResult, h1]
    rcases h2 : extractCount o2 with _ | t2
    · simp [getAssetCountsResult, h1, h2]
    rcases h3 : extractCount o3 with _ | t3
    · simp [getAssetCountsResult, h1, h2, h3]
    rcases h4 : extractCount o4 with _ | t4
    · simp [getAssetCountsResult, h1, h2, h3, h4]
    exfalso
    rcases h with h | h | h | h
    · exact Option.some_ne_none t1 (h1.symm.trans h)
    · exact Option.some_ne_none t2 (h2.symm.trans h)
    · exact Option.some_ne_none t3 (h3.symm.trans h)
    · exact Option.some_ne_none t4 (h4.symm.trans h)
  · intro j t h
    subst h
    have he : extractCount (FetchOutcome.resp false j t) = some 0 := rfl
    rcases h2 : extractCount o2 with _ | t2 <;>
      rcases h3 : extractCount o3 with _ | t3 <;>
        rcases h4 : extractCount o4 with _ | t4 <;>
          simp [getAssetCountsResult, he, h2, h3, h4]
  · intro j t h
    subst h
    have he : extractCount (FetchOutcome.resp false j t) = some 0 := rfl
    rcases h1 : extractCount o1 with _ | t1 <;>
      rcases h3 : extractCount o3 with _ | t3 <;>
        rcases h4 : extractCount o4 with _ | t4 <;>
          simp [getAssetCountsResult, he, h1, h3, h4]
  · intro j t h
    subst h
    have he : extractCount (FetchOutcome.resp false j t) = some 0 := rfl
    rcases h1 : extractCount o1 with _ | t1 <;>
      rcases h2 : extractCount o2 with _ | t2 <;>
        rcases h4 : extractCount o4 with _ | t4 <;>
          simp [getAssetCountsResult, he, h1, h2, h4]
  · intro j t h
    subst h
    have he : extractCount (FetchOutcome.resp false j t) = some 0 := rfl
    rcases h1 : extractCount o1 with _ | t1 <;>
      rcases h2 : extractCount o2 with _ | t2 <;>
        rcases h3 : extractCount o3 with _ | t3 <;>
          simp [getAssetCountsResult, he, h1, h2, h3]

/-- C10 witness: the totality theorem applied to one network failure and three
    non-ok responses. -/
theorem C10_counts_error_totality_witness :
    ((extractCount .netFail = none ∨
        extractCount (.resp false true (some 5)) = none ∨
        extractCount (.resp false true (some 6)) = none ∨
        extractCount (.resp false true (some 7)) = none) →
      getAssetCountsResult .netFail (.resp false true (some 5))
        (.resp false true (some 6)) (.resp false true (some 7)) = ⟨0, 0, 0, 0⟩) ∧
    (∀ j t, FetchOutcome.netFail = .resp false j t →
      (getAssetCountsResult .netFail (.resp false true (some 5))
        (.resp false true (some 6)) (.resp false true (some 7))).total = 0) ∧
    (∀ j t, FetchOutcome.resp false true (some 5) = .resp false j t →
      (getAssetCountsResult .netFail (.resp false true (some 5))
        (.resp false true (some 6)) (.resp false true (some 7))).laptops = 0) ∧
    (∀ j t, FetchOutcome.resp false true (some 6) = .resp false j t →
      (getAssetCountsResult .netFail (.resp false true (some 5))
        (.resp false true (some 6)) (.resp false true (some 7))).desktops = 0) ∧
    (∀ j t, FetchOutcome.resp false true (some 7) = .resp false j t →
      (getAssetCountsResult .netFail (.resp false true (some 5))
        (.resp false true (some 6)) (.resp false true (some 7))).printers = 0) :=
  C10_counts_error_totality .netFail (.resp false true (some 5))
    (.resp false true (some 6)) (.resp false true (some 7))

/-- Running a rapid trace from the pending timer set by the previous keystroke
    fires nothing and leaves the last keystroke's timer pending. -/
theorem runKeystrokes_rapid (rest : List (Nat × String)) :
    ∀ t0 v0, rapid ((t0, v0) :: rest) = true →
      runKeystrokes ⟨v0, some (t0 + 400, v0)⟩ rest =
        (⟨(lastStroke ((t0, v0) :: rest)).2,
          some ((lastStroke ((t0, v0) :: rest)).1 + 400,
                (lastStroke ((t0, v0) :: rest)).2)⟩, []) := by
  induction rest with
  | nil => intro t0 v0 _; rfl
  | cons k rest ih =>
      intro t0 v0 h
      obtain ⟨t1, v1⟩ := k
      have hsplit : t1 < t0 + 400 ∧ rapid ((t1, v1) :: rest) = true := by
        simpa [rapid] using h
      have h1 : t1 < t0 + 400 := hsplit.1
      have h2 : rapid ((t1, v1) :: rest) = true := hsplit.2
      have hfired : stepKeystroke ⟨v0, some (t0 + 400, v0)⟩ t1 v1
          = (⟨v1, some (t1 + 400, v1)⟩, []) := by
        simp only [stepKeystroke]
        rw [if_neg (by omega)]
      rw [runKeystrokes]
      simp only [hfired]
      rw [ih t1 v1 h2]
      rfl

/-- C6: for every nonempty keystroke trace whose consecutive keystrokes are
    less than 400ms apart, no fetch fires during typing, exactly one fetch is
    ultimately triggered and it carries the last keystroke's value, and
    tearing the component down before that last timer expires cancels it so
    nothing fires at all. -/
theorem C6_debounced_search (ks : List (Nat × String)) (hne : ks ≠ [])
    (hrapid : rapid ks = true) :
    (runKeystrokes {} ks).2 = [] ∧
    settle (runKeystrokes {} ks).1
      = [((lastStroke ks).1 + 400, (lastStroke ks).2)] ∧
    ∀ t, t < (lastStroke ks).1 + 400 → unmountAt (runKeystrokes {} ks).1 t = [] := by
  obtain ⟨⟨t0, v0⟩, rest, rfl⟩ : ∃ k rest, ks = k :: rest := by
    cases ks with
    | nil => exact absurd rfl hne
    | cons k rest => exact ⟨k, rest, rfl⟩
  have hrun : runKeystrokes {} ((t0, v0) :: rest)
      = (⟨(lastStroke ((t0, v0) :: rest)).2,
          some ((lastStroke ((t0, v0) :: rest)).1 + 400,
                (lastStroke ((t0, v0) :: rest)).2)⟩, []) := by
    rw [runKeystrokes]
    have hfirst : stepKeystroke {} t0 v0 = (⟨v0, some (t0 + 400, v0)⟩, []) := rfl
    simp only [hfirst]
    rw [runKeystrokes_rapid rest t0 v0 hrapid]
    rfl
  refine ⟨by rw [hrun], by rw [hrun]; rfl, ?_⟩
  intro t ht
  rw [hrun]
  show (if (lastStroke ((t0, v0) :: rest)).1 + 400 ≤ t
      then [((lastStroke ((t0, v0) :: rest)).1 + 400,
             (lastStroke ((t0, v0) :: rest)).2)]
      else []) = []
  rw [if_neg (by omega)]

/-- C6 witness: the debounce theorem applied to the trace that types Dell and
    completes it to Dell Inc 200ms later. -/
theorem C6_debounced_search_witness :
    (([(0, "Dell"), (200, "Dell Inc")] : List (Nat × String)) ≠ []) ∧
    (rapid [(0, "Dell"), (200, "Dell Inc")] = true) ∧
    ((runKeystrokes {} [(0, "Dell"), (200, "Dell Inc")]).2 = [] ∧
     settle (runKeystrokes {} [(0, "Dell"), (200, "Dell Inc")]).1
        = [(600, "Dell Inc")] ∧
     ∀ t, t < 600 →
        unmountAt (runKeystrokes {} [(0, "Dell"), (200, "Dell Inc")]).1 t = []) :=
  ⟨by decide, by decide,
   C6_debounced_search [(0, "Dell"), (200, "Dell Inc")] (by decide) (by decide)⟩

end ITAssets
